import Mathlib

/-!
Verification of the system catalog table codec
(`src/catalog/src/system.rs`).

The Rust source is shallowly embedded: bytes are `Nat` values (< 256 for
real inputs), byte strings are `List Nat`, fallible Rust functions
returning `Result<T, Error>` become `Except Err T`, and the impure
wall-clock reads of `build_table_insert_request` become explicit `Int`
parameters (one per call to `util::current_time_millis()`).
-/

/-- Replacement character U+FFFD, pushed by `String::from_utf8_lossy`
for each invalid byte sequence. -/
def replacementChar : Char := Char.ofNat 0xFFFD

/-- Is `b` a UTF-8 continuation byte (`0x80..=0xBF`)? -/
def isUtf8Cont (b : Nat) : Bool := 0x80 ≤ b && b ≤ 0xBF

/-- One step of lossy UTF-8 decoding: given the first byte `b0` and the
remaining bytes, produce the decoded character (or U+FFFD) and the bytes
left to decode.  Follows Rust's `core::str` validation table, including
the "substitution of maximal subparts" policy used by
`String::from_utf8_lossy`: when a multi-byte sequence turns invalid at
its `k`-th byte, the `k-1` bytes read so far are replaced by a single
U+FFFD and decoding resumes at the offending byte; a sequence truncated
by end of input is likewise replaced by a single U+FFFD. -/
def utf8Step (b0 : Nat) (rest : List Nat) : Char × List Nat :=
  if b0 < 0x80 then
    (Char.ofNat b0, rest)
  else if b0 < 0xC2 then
    -- continuation byte or overlong 2-byte start: invalid as first byte
    (replacementChar, rest)
  else if b0 ≤ 0xDF then
    match rest with
    | b1 :: r1 =>
      if isUtf8Cont b1 then
        (Char.ofNat ((b0 - 0xC0) * 0x40 + (b1 - 0x80)), r1)
      else (replacementChar, b1 :: r1)
    | [] => (replacementChar, [])
  else if b0 ≤ 0xEF then
    -- three-byte sequence; E0 excludes overlongs, ED excludes surrogates
    let lo1 := if b0 = 0xE0 then 0xA0 else 0x80
    let hi1 := if b0 = 0xED then 0x9F else 0xBF
    match rest with
    | b1 :: r1 =>
      if lo1 ≤ b1 && b1 ≤ hi1 then
        match r1 with
        | b2 :: r2 =>
          if isUtf8Cont b2 then
            (Char.ofNat ((b0 - 0xE0) * 0x1000 + (b1 - 0x80) * 0x40 + (b2 - 0x80)), r2)
          else (replacementChar, b2 :: r2)
        | [] => (replacementChar, [])
      else (replacementChar, b1 :: r1)
    | [] => (replacementChar, [])
  else if b0 ≤ 0xF4 then
    -- four-byte sequence; F0 excludes overlongs, F4 caps at U+10FFFF
    let lo1 := if b0 = 0xF0 then 0x90 else 0x80
    let hi1 := if b0 = 0xF4 then 0x8F else 0xBF
    match rest with
    | b1 :: r1 =>
      if lo1 ≤ b1 && b1 ≤ hi1 then
        match r1 with
        | b2 :: r2 =>
          if isUtf8Cont b2 then
            match r2 with
            | b3 :: r3 =>
              if isUtf8Cont b3 then
                (Char.ofNat ((b0 - 0xF0) * 0x40000 + (b1 - 0x80) * 0x1000 +
                  (b2 - 0x80) * 0x40 + (b3 - 0x80)), r3)
              else (replacementChar, b3 :: r3)
            | [] => (replacementChar, [])
          else (replacementChar, b2 :: r2)
        | [] => (replacementChar, [])
      else (replacementChar, b1 :: r1)
    | [] => (replacementChar, [])
  else
    (replacementChar, rest)

/-- `utf8Step` never grows the remaining input. -/
theorem utf8Step_length_le (b0 : Nat) (rest : List Nat) :
    (utf8Step b0 rest).2.length ≤ rest.length := by
  unfold utf8Step
  repeat' split
  all_goals simp_all
  all_goals repeat' split
  all_goals simp_all
  all_goals omega

/-- Fuel-indexed driver for lossy UTF-8 decoding; fuel bounds the number
of decoded characters, and the input length is always enough fuel. -/
def utf8DecodeLossyAux : Nat → List Nat → List Char
  | 0, _ => []
  | _, [] => []
  | fuel + 1, b :: rest =>
    let s := utf8Step b rest
    s.1 :: utf8DecodeLossyAux fuel s.2

/-- Model of Rust's `String::from_utf8_lossy`: decode a byte string to
text, replacing invalid UTF-8 sequences with U+FFFD instead of failing. -/
def from_utf8_lossy (l : List Nat) : String :=
  ⟨utf8DecodeLossyAux l.length l⟩

/-- UTF-8 encoding of a single code point (model of Rust's
`char` encoding; used to state theorems about textual keys as the byte
strings Rust's `str::as_bytes` would yield). -/
def utf8EncodeChar (c : Nat) : List Nat :=
  if c < 0x80 then [c]
  else if c < 0x800 then [0xC0 + c / 0x40, 0x80 + c % 0x40]
  else if c < 0x10000 then
    [0xE0 + c / 0x1000, 0x80 + (c / 0x40) % 0x40, 0x80 + c % 0x40]
  else
    [0xF0 + c / 0x40000, 0x80 + (c / 0x1000) % 0x40, 0x80 + (c / 0x40) % 0x40,
      0x80 + c % 0x40]

/-- Model of Rust's `str::as_bytes` / `String::as_bytes`: the UTF-8
bytes of a string. -/
def strBytes (s : String) : List Nat :=
  (s.data.map (fun c => utf8EncodeChar c.toNat)).flatten

/-- Model of Rust's `str::split('.')` collected into a vector: split a
character list on `'.'`, keeping empty fields (so `""` yields `[""]`,
`"a..b"` yields `["a", "", "b"]`), exactly as `"...".split('.')` does. -/
def splitDotAux : List Char → List Char → List String
  | [], acc => [⟨acc.reverse⟩]
  | c :: rest, acc =>
    if c = '.' then ⟨acc.reverse⟩ :: splitDotAux rest []
    else splitDotAux rest (c :: acc)

/-- `key.split('.').collect::<Vec<_>>()` over a Lean `String`. -/
def splitDot (s : String) : List String := splitDotAux s.data []

/-- Skip JSON whitespace (space, tab, line feed, carriage return), as
`serde_json` does between tokens. -/
def skipJsonWs : List Nat → List Nat
  | b :: rest =>
    if b = 0x20 ∨ b = 0x09 ∨ b = 0x0A ∨ b = 0x0D then skipJsonWs rest
    else b :: rest
  | [] => []

/-- Take the longest run of ASCII digits from the front of the input,
returning the digits and the remainder. -/
def takeDigits : List Nat → List Nat × List Nat
  | b :: rest =>
    if 0x30 ≤ b ∧ b ≤ 0x39 then
      let r := takeDigits rest
      (b :: r.1, r.2)
    else ([], b :: rest)
  | [] => ([], [])

/-- Numeric value of a run of ASCII digit bytes. -/
def digitsToNat (l : List Nat) : Nat :=
  l.foldl (fun acc b => acc * 10 + (b - 0x30)) 0

/-- Drop an exact literal byte sequence from the front of the input,
failing if it does not match. -/
def dropLiteral : List Nat → List Nat → Option (List Nat)
  | [], l => some l
  | _ :: _, [] => none
  | x :: xs, y :: ys => if x = y then dropLiteral xs ys else none

/-- The bytes of the JSON object key `table_id`. -/
def tableIdKeyBytes : List Nat :=
  [0x74, 0x61, 0x62, 0x6C, 0x65, 0x5F, 0x69, 0x64]

/-- Model of `serde_json::from_slice::<TableEntryValue>` on the
`TableEntryValue` shape: parse the single-field JSON object
`{"table_id": <n>}` (brace = 0x7B/0x7D, quote = 0x22, colon = 0x3A),
with JSON whitespace allowed between tokens, the JSON number grammar for
a non-negative integer (no leading zeros), and the `u32` range check
`serde` performs for the `table_id: u32` field.  `none` models a
deserialization error.  Escaped spellings of the key and unknown extra
fields are not modelled. -/
def parseTableEntryValue (v : List Nat) : Option Nat :=
  match skipJsonWs v with
  | 0x7B :: r1 =>
    match skipJsonWs r1 with
    | 0x22 :: r2 =>
      match dropLiteral tableIdKeyBytes r2 with
      | some (0x22 :: r3) =>
        match skipJsonWs r3 with
        | 0x3A :: r4 =>
          let p := takeDigits (skipJsonWs r4)
          if p.1 = [] then none
          else if p.1.head? = some 0x30 ∧ 1 < p.1.length then none
          else if digitsToNat p.1 < 4294967296 then
            match skipJsonWs p.2 with
            | 0x7D :: r5 =>
              match skipJsonWs r5 with
              | [] => some (digitsToNat p.1)
              | _ => none
            | _ => none
          else none
        | _ => none
      | _ => none
    | _ => none
  | _ => none

/-- Model of `serde_json::to_string(&TableEntryValue { table_id })`:
the canonical serialization `{"table_id":<n>}` (no spaces), which for
this one-field struct cannot fail. -/
def tableEntryValueToJson (table_id : Nat) : String :=
  "\x7b\"table_id\":" ++ toString table_id ++ "\x7d"

/-- `EntryType` (`system.rs`): the catalog row discriminant, with wire
codes Catalog = 1, Schema = 2, Table = 3. -/
inductive EntryType
  | Catalog
  | Schema
  | Table
deriving DecidableEq, Repr

/-- The numeric wire code of an `EntryType` (`EntryType::Catalog as u8`
and so on). -/
def EntryType.code : EntryType → Nat
  | .Catalog => 1
  | .Schema => 2
  | .Table => 3

/-- `CatalogEntry` (`system.rs`). -/
structure CatalogEntry where
  catalog_name : String
deriving DecidableEq, Repr

/-- `SchemaEntry` (`system.rs`). -/
structure SchemaEntry where
  catalog_name : String
  schema_name : String
deriving DecidableEq, Repr

/-- `TableEntry` (`system.rs`); `table_id` is a `u32` (`TableId`). -/
structure TableEntry where
  catalog_name : String
  schema_name : String
  table_name : String
  table_id : Nat
deriving DecidableEq, Repr

/-- `Entry` (`system.rs`): the decoded catalog row. -/
inductive Entry
  | Catalog (e : CatalogEntry)
  | Schema (e : SchemaEntry)
  | Table (e : TableEntry)
deriving DecidableEq, Repr

/-- Modelled from the spec: the error taxonomy of §7 (`crate::error` is
outside the analysed sources; payloads follow the `snafu` context
selectors used in `system.rs`: `InvalidKey` carries an optional key
string, `InvalidEntryType` the optional offending byte). -/
inductive Err
  | OpenSystemCatalogFailed
  | CreateSystemCatalogFailed
  | InvalidKey (key : Option String)
  | InvalidEntryType (entry_type : Option Nat)
  | EmptyValue
  | ValueDeserializeFailed
deriving DecidableEq, Repr

/-- Is this one of the four typed decode-time failures? -/
def Err.isDecodeError : Err → Bool
  | .InvalidKey _ => true
  | .InvalidEntryType _ => true
  | .EmptyValue => true
  | .ValueDeserializeFailed => true
  | _ => false

/-- `EntryType::try_from` (`system.rs`): map a raw byte back to the
variant with that code, or fail with `InvalidEntryType` carrying the
offending byte. -/
def EntryType.tryFrom (value : Nat) : Except Err EntryType :=
  if value = EntryType.code .Catalog then .ok .Catalog
  else if value = EntryType.code .Schema then .ok .Schema
  else if value = EntryType.code .Table then .ok .Table
  else .error (.InvalidEntryType (some value))

/-- The `EntryType::Catalog` arm of `decode_system_catalog`: the key is
the catalog name verbatim; the value is not used. -/
def decodeCatalogKey (key : String) : Except Err Entry :=
  .ok (.Catalog { catalog_name := key })

/-- The `EntryType::Schema` arm of `decode_system_catalog`: the key must
split on `'.'` into exactly two parts; the value is not used. -/
def decodeSchemaKey (key : String) : Except Err Entry :=
  match splitDot key with
  | [catalog_name, schema_name] =>
    .ok (.Schema { catalog_name, schema_name })
  | _ => .error (.InvalidKey (some key))

/-- The `EntryType::Table` arm of `decode_system_catalog`: the key must
split on `'.'` into at least three parts (only the first three are
used), the value must be present and parse as `TableEntryValue`. -/
def decodeTableKey (key : String) (value : Option (List Nat)) :
    Except Err Entry :=
  match splitDot key with
  | catalog_name :: schema_name :: table_name :: _ =>
    match value with
    | none => .error .EmptyValue
    | some v =>
      match parseTableEntryValue v with
      | none => .error .ValueDeserializeFailed
      | some table_id =>
        .ok (.Table { catalog_name, schema_name, table_name, table_id })
  | _ => .error (.InvalidKey (some key))

/-- `decode_system_catalog` (`system.rs`): decode one raw row
(`entry_type`, `key`, `value`) into an `Entry`.  Both `entry_type` and
`key` must be present (otherwise `InvalidKey` with no carried key), the
key bytes are decoded lossily to text, the discriminant dispatches via
`EntryType::try_from`, and each arm parses the key (and, for tables,
the value) as in the source. -/
def decode_system_catalog (entry_type : Option Nat) (key : Option (List Nat))
    (value : Option (List Nat)) : Except Err Entry :=
  match entry_type with
  | none => .error (.InvalidKey none)
  | some et =>
    match key with
    | none => .error (.InvalidKey none)
    | some kb =>
      let key := from_utf8_lossy kb
      match EntryType.tryFrom et with
      | .error e => .error e
      | .ok .Catalog => decodeCatalogKey key
      | .ok .Schema => decodeSchemaKey key
      | .ok .Table => decodeTableKey key value

deriving instance DecidableEq for Except

/-- A single column's values in an insert request: the vector types used
by `build_table_insert_request` (`UInt8Vector`, `BinaryVector`,
`TimestampVector`). -/
inductive ColumnValues
  | u8s (xs : List Nat)
  | bins (xs : List (List Nat))
  | tss (xs : List Int)
deriving DecidableEq, Repr

/-- `InsertRequest` (`table::requests`): a table name and a map from
column name to column values, modelled as an association list (the
source uses a `HashMap`; lookups by name are order-independent). -/
structure InsertRequest where
  table_name : String
  columns_values : List (String × ColumnValues)
deriving DecidableEq, Repr

/-- Modelled from the spec: the reserved system catalog table name
(`SYSTEM_CATALOG_TABLE_NAME` lives in `crate::consts`, outside the
analysed sources); a fixed constant whose exact text no claim depends
on. -/
def SYSTEM_CATALOG_TABLE_NAME : String := "system_catalog"

/-- `build_table_insert_request` (`system.rs`): encode a table entry as
a single-row insert request.  The two impure reads of
`util::current_time_millis()` — one for `gmt_created`, one for
`gmt_modified`, in that order — are passed explicitly as `t_created`
and `t_modified`. -/
def build_table_insert_request (full_table_name : String) (table_id : Nat)
    (t_created t_modified : Int) : InsertRequest :=
  { table_name := SYSTEM_CATALOG_TABLE_NAME
    columns_values :=
      [ ("entry_type", .u8s [EntryType.code .Table])
      , ("key", .bins [strBytes full_table_name])
      -- Timestamp in key part is intentionally left to 0
      , ("timestamp", .tss [0])
      , ("value", .bins [strBytes (tableEntryValueToJson table_id)])
      , ("gmt_created", .tss [t_created])
      , ("gmt_modified", .tss [t_modified]) ] }

/-- Outcome of a call to `SystemCatalogTable::scan`: either an
unrecoverable panic, a record batch stream handle, or a recoverable
error. -/
inductive ScanResult
  | panicked (msg : String)
  | stream
  | err (e : Err)
deriving DecidableEq, Repr

/-- `SystemCatalogTable::scan` (`system.rs`): the narrower-scan entry
point of the facade; its body unconditionally panics with the message
"System catalog table does not support scan!", whatever projection,
filters and limit are passed. -/
def SystemCatalogTable.scan (_projection : Option (List Nat))
    (_filters : List String) (_limit : Option Nat) : ScanResult :=
  .panicked "System catalog table does not support scan!"

/-! ## Helper lemmas shared by the claim theorems -/

/-- `decode_system_catalog` on a present Schema row is the Schema arm
applied to the lossily decoded key. -/
theorem decode_schema_row_eq (kb : List Nat) (v : Option (List Nat)) :
    decode_system_catalog (some 2) (some kb) v =
      decodeSchemaKey (from_utf8_lossy kb) := rfl

/-- `decode_system_catalog` on a present Table row is the Table arm
applied to the lossily decoded key and the raw value. -/
theorem decode_table_row_eq (kb : List Nat) (v : Option (List Nat)) :
    decode_system_catalog (some 3) (some kb) v =
      decodeTableKey (from_utf8_lossy kb) v := rfl

/-- `EntryType.tryFrom` can only fail with `InvalidEntryType` carrying
the offending byte. -/
theorem tryFrom_error_shape (b : Nat) (e : Err)
    (h : EntryType.tryFrom b = .error e) : e = .InvalidEntryType (some b) := by
  unfold EntryType.tryFrom at h
  repeat' split at h
  all_goals simp_all

/-- The Schema arm fails with `InvalidKey` carrying the key whenever the
key does not split into exactly two parts. -/
theorem decodeSchemaKey_bad_arity (s : String)
    (h : (splitDot s).length ≠ 2) :
    decodeSchemaKey s = .error (.InvalidKey (some s)) := by
  unfold decodeSchemaKey
  rcases hs : splitDot s with _ | ⟨a, _ | ⟨b, _ | ⟨c, l⟩⟩⟩ <;> simp_all

/-- The Table arm fails with `InvalidKey` carrying the key whenever the
key splits into fewer than three parts. -/
theorem decodeTableKey_short_key (s : String) (v : Option (List Nat))
    (h : (splitDot s).length < 3) :
    decodeTableKey s v = .error (.InvalidKey (some s)) := by
  unfold decodeTableKey
  rcases hs : splitDot s with _ | ⟨a, _ | ⟨b, _ | ⟨c, l⟩⟩⟩ <;> simp_all
  omega

/-- The Table arm fails with `EmptyValue` on a well-formed key with an
absent value. -/
theorem decodeTableKey_empty_value (s : String)
    (h : 3 ≤ (splitDot s).length) :
    decodeTableKey s none = .error .EmptyValue := by
  unfold decodeTableKey
  rcases hs : splitDot s with _ | ⟨a, _ | ⟨b, _ | ⟨c, l⟩⟩⟩ <;> simp_all

/-- The Table arm fails with `ValueDeserializeFailed` on a well-formed
key with a present value that does not parse. -/
theorem decodeTableKey_bad_value (s : String) (vb : List Nat)
    (h : 3 ≤ (splitDot s).length) (hv : parseTableEntryValue vb = none) :
    decodeTableKey s (some vb) = .error .ValueDeserializeFailed := by
  unfold decodeTableKey
  rcases hs : splitDot s with _ | ⟨a, _ | ⟨b, _ | ⟨c, l⟩⟩⟩ <;> simp_all

/-! ## Claim theorems -/

/-- C1: for every well-formed row of each of the three entry types,
`decode_system_catalog` returns the corresponding `Entry` variant whose
fields exactly match the input key/value components: entry type 1 gives
`Entry.Catalog` with the key text as catalog name; entry type 2 with a
key of exactly two dot-separated parts `a.b` gives `Entry.Schema a b`;
entry type 3 with a key of three dot-separated parts and a value parsing
as `{"table_id": n}` gives `Entry.Table` with the parsed names and
`table_id = n`. -/
theorem decode_wellformed_rows :
    (∀ (k : List Nat) (v : Option (List Nat)),
      decode_system_catalog (some 1) (some k) v =
        .ok (.Catalog ⟨from_utf8_lossy k⟩)) ∧
    (∀ (k : List Nat) (v : Option (List Nat)) (a b : String),
      splitDot (from_utf8_lossy k) = [a, b] →
      decode_system_catalog (some 2) (some k) v = .ok (.Schema ⟨a, b⟩)) ∧
    (∀ (k vb : List Nat) (a b c : String) (n : Nat),
      splitDot (from_utf8_lossy k) = [a, b, c] →
      parseTableEntryValue vb = some n →
      decode_system_catalog (some 3) (some k) (some vb) =
        .ok (.Table ⟨a, b, c, n⟩)) := by
  refine ⟨fun k v => rfl, ?_, ?_⟩
  · intro k v a b h
    rw [decode_schema_row_eq]
    unfold decodeSchemaKey
    rw [h]
  · intro k vb a b c n h hv
    rw [decode_table_row_eq]
    unfold decodeTableKey
    rw [h]
    simp [hv]

/-- Witness for C1: scenarios A, B and C of the spec, at concrete
inputs. -/
theorem decode_wellformed_rows_witness :
    decode_system_catalog (some 1) (some (strBytes "some_catalog")) none =
      .ok (.Catalog ⟨"some_catalog"⟩) ∧
    decode_system_catalog (some 2)
        (some (strBytes "some_catalog.some_schema")) none =
      .ok (.Schema ⟨"some_catalog", "some_schema"⟩) ∧
    decode_system_catalog (some 3)
        (some (strBytes "some_catalog.some_schema.some_table"))
        (some (strBytes "\x7b\"table_id\":42\x7d")) =
      .ok (.Table ⟨"some_catalog", "some_schema", "some_table", 42⟩) := by
  refine ⟨?_, ?_, ?_⟩
  · have h := decode_wellformed_rows.1 (strBytes "some_catalog") none
    rw [show from_utf8_lossy (strBytes "some_catalog") = "some_catalog"
      from by decide] at h
    exact h
  · exact decode_wellformed_rows.2.1 _ none "some_catalog" "some_schema"
      (by decide)
  · exact decode_wellformed_rows.2.2 _ _ "some_catalog" "some_schema"
      "some_table" 42 (by decide) (by decide)

/-- C2 (counterexample): decoding entry type 3 with key `"a.b.c.d"` and
value `{"table_id":1}` yields table name `"c"` — the third dot-separated
part alone — not `"c.d"` as the claim's remainder-rejoined reading would
give. -/
theorem decode_table_dotted_name_counterexample :
    decode_system_catalog (some 3) (some (strBytes "a.b.c.d"))
        (some (strBytes (tableEntryValueToJson 1))) =
      .ok (.Table ⟨"a", "b", "c", 1⟩) ∧
    decode_system_catalog (some 3) (some (strBytes "a.b.c.d"))
        (some (strBytes (tableEntryValueToJson 1))) ≠
      .ok (.Table ⟨"a", "b", "c.d", 1⟩) := by
  constructor
  · decide
  · decide

/-- C2 (amended): for every Table-entry key splitting into at least
three dot-separated parts, `decode_system_catalog` takes the first two
parts as catalog and schema name and the THIRD PART ALONE as table name;
any parts after the third are dropped. -/
theorem decode_table_key_takes_third_part (k vb : List Nat)
    (a b c : String) (rest : List String) (n : Nat)
    (hs : splitDot (from_utf8_lossy k) = a :: b :: c :: rest)
    (hv : parseTableEntryValue vb = some n) :
    decode_system_catalog (some 3) (some k) (some vb) =
      .ok (.Table ⟨a, b, c, n⟩) := by
  rw [decode_table_row_eq]
  unfold decodeTableKey
  rw [hs]
  simp [hv]

/-- Witness for the amended C2: key `"a.b.c.d"` decodes to table name
`"c"`, dropping `"d"`. -/
theorem decode_table_key_takes_third_part_witness :
    splitDot (from_utf8_lossy (strBytes "a.b.c.d")) =
      "a" :: "b" :: "c" :: ["d"] ∧
    decode_system_catalog (some 3) (some (strBytes "a.b.c.d"))
        (some (strBytes "\x7b\"table_id\":9\x7d")) =
      .ok (.Table ⟨"a", "b", "c", 9⟩) :=
  ⟨by decide,
   decode_table_key_takes_third_part _ _ "a" "b" "c" ["d"] 9
     (by decide) (by decide)⟩

/-- C3 (counterexample): when the two wall-clock reads of
`build_table_insert_request` straddle a millisecond boundary (first
read 0, second read 1), `gmt_created` and `gmt_modified` differ, so
they are not always "the same instant" as the claim states. -/
theorem build_insert_gmt_counterexample :
    (build_table_insert_request "cat.sch.tbl" 7 0 1).columns_values.lookup
        "gmt_created" ≠
      (build_table_insert_request "cat.sch.tbl" 7 0 1).columns_values.lookup
        "gmt_modified" := by
  decide

/-- C3 (amended): `build_table_insert_request` produces a single-row
insert with entry type 3 (the Table wire code), key = the raw UTF-8
bytes of the full table name, timestamp = 0, value = the JSON
serialization `{"table_id":<id>}`, and `gmt_created`, `gmt_modified`
equal to the first and second wall-clock read respectively — equal to
each other whenever the clock reports the same millisecond for both
reads; the function is total and never fails. -/
theorem build_table_insert_request_fields (full_table_name : String)
    (table_id : Nat) (t_created t_modified : Int) :
    ((build_table_insert_request full_table_name table_id t_created
        t_modified).columns_values.lookup "entry_type" =
      some (.u8s [3]) ∧
    (build_table_insert_request full_table_name table_id t_created
        t_modified).columns_values.lookup "key" =
      some (.bins [strBytes full_table_name]) ∧
    (build_table_insert_request full_table_name table_id t_created
        t_modified).columns_values.lookup "timestamp" =
      some (.tss [0]) ∧
    (build_table_insert_request full_table_name table_id t_created
        t_modified).columns_values.lookup "value" =
      some (.bins [strBytes
        ("\x7b\"table_id\":" ++ toString table_id ++ "\x7d")]) ∧
    (build_table_insert_request full_table_name table_id t_created
        t_modified).columns_values.lookup "gmt_created" =
      some (.tss [t_created]) ∧
    (build_table_insert_request full_table_name table_id t_created
        t_modified).columns_values.lookup "gmt_modified" =
      some (.tss [t_modified])) ∧
    (t_created = t_modified →
      (build_table_insert_request full_table_name table_id t_created
          t_modified).columns_values.lookup "gmt_created" =
        (build_table_insert_request full_table_name table_id t_created
            t_modified).columns_values.lookup "gmt_modified") := by
  refine ⟨⟨rfl, rfl, rfl, rfl, rfl, rfl⟩, ?_⟩
  intro h
  subst h
  rfl

/-- Witness for the amended C3: scenario E at a concrete instant, with
both clock reads returning 1000. -/
theorem build_table_insert_request_fields_witness :
    ((build_table_insert_request "cat.sch.tbl" 7 1000 1000).columns_values.lookup
        "entry_type" = some (.u8s [3]) ∧
    (build_table_insert_request "cat.sch.tbl" 7 1000 1000).columns_values.lookup
        "key" = some (.bins [strBytes "cat.sch.tbl"]) ∧
    (build_table_insert_request "cat.sch.tbl" 7 1000 1000).columns_values.lookup
        "timestamp" = some (.tss [0]) ∧
    (build_table_insert_request "cat.sch.tbl" 7 1000 1000).columns_values.lookup
        "value" = some (.bins [strBytes "\x7b\"table_id\":7\x7d"]) ∧
    (build_table_insert_request "cat.sch.tbl" 7 1000 1000).columns_values.lookup
        "gmt_created" = some (.tss [1000]) ∧
    (build_table_insert_request "cat.sch.tbl" 7 1000 1000).columns_values.lookup
        "gmt_modified" = some (.tss [1000])) ∧
    (build_table_insert_request "cat.sch.tbl" 7 1000 1000).columns_values.lookup
        "gmt_created" =
      (build_table_insert_request "cat.sch.tbl" 7 1000 1000).columns_values.lookup
        "gmt_modified" :=
  ⟨(build_table_insert_request_fields "cat.sch.tbl" 7 1000 1000).1,
   (build_table_insert_request_fields "cat.sch.tbl" 7 1000 1000).2 rfl⟩

/-- Classification of the Schema arm: it yields an entry or a typed
decode error. -/
theorem decodeSchemaKey_classified (s : String) :
    (∃ e, decodeSchemaKey s = .ok e) ∨
    (∃ er, decodeSchemaKey s = .error er ∧ er.isDecodeError = true) := by
  unfold decodeSchemaKey
  rcases splitDot s with _ | ⟨a, _ | ⟨b, _ | ⟨c, l⟩⟩⟩
  · exact Or.inr ⟨.InvalidKey (some s), rfl, rfl⟩
  · exact Or.inr ⟨.InvalidKey (some s), rfl, rfl⟩
  · exact Or.inl ⟨.Schema ⟨a, b⟩, rfl⟩
  · exact Or.inr ⟨.InvalidKey (some s), rfl, rfl⟩

/-- Classification of the Table arm: it yields an entry or a typed
decode error. -/
theorem decodeTableKey_classified (s : String) (v : Option (List Nat)) :
    (∃ e, decodeTableKey s v = .ok e) ∨
    (∃ er, decodeTableKey s v = .error er ∧ er.isDecodeError = true) := by
  rcases hs : splitDot s with _ | ⟨a, _ | ⟨b, _ | ⟨c, l⟩⟩⟩
  · exact Or.inr ⟨.InvalidKey (some s),
      decodeTableKey_short_key s v (by simp [hs]), rfl⟩
  · exact Or.inr ⟨.InvalidKey (some s),
      decodeTableKey_short_key s v (by simp [hs]), rfl⟩
  · exact Or.inr ⟨.InvalidKey (some s),
      decodeTableKey_short_key s v (by simp [hs]), rfl⟩
  · rcases v with _ | vb
    · exact Or.inr ⟨.EmptyValue,
        decodeTableKey_empty_value s (by simp [hs]), rfl⟩
    · rcases hp : parseTableEntryValue vb with _ | n
      · exact Or.inr ⟨.ValueDeserializeFailed,
          decodeTableKey_bad_value s vb (by simp [hs]) hp, rfl⟩
      · refine Or.inl ⟨.Table ⟨a, b, c, n⟩, ?_⟩
        unfold decodeTableKey
        rw [hs]
        simp [hp]

/-- C4: `decode_system_catalog` is total and never panics: every
combination of optional entry type byte, optional key bytes and
optional value bytes yields either an `Entry` or one of the four typed
decode errors (`InvalidKey`, `InvalidEntryType`, `EmptyValue`,
`ValueDeserializeFailed`); and invalid UTF-8 in the key is replaced
lossily rather than causing failure — a Catalog row decodes
successfully to the lossily decoded key text whatever bytes the key
holds. -/
theorem decode_total_typed_errors :
    (∀ (t : Option Nat) (k v : Option (List Nat)),
      (∃ e, decode_system_catalog t k v = .ok e) ∨
      (∃ er, decode_system_catalog t k v = .error er ∧
        er.isDecodeError = true)) ∧
    (∀ (k : List Nat) (v : Option (List Nat)),
      decode_system_catalog (some 1) (some k) v =
        .ok (.Catalog ⟨from_utf8_lossy k⟩)) := by
  constructor
  · intro t k v
    rcases t with _ | et
    · exact Or.inr ⟨.InvalidKey none, rfl, rfl⟩
    rcases k with _ | kb
    · exact Or.inr ⟨.InvalidKey none, rfl, rfl⟩
    have hstep : decode_system_catalog (some et) (some kb) v =
        match EntryType.tryFrom et with
        | .error e => .error e
        | .ok .Catalog => decodeCatalogKey (from_utf8_lossy kb)
        | .ok .Schema => decodeSchemaKey (from_utf8_lossy kb)
        | .ok .Table => decodeTableKey (from_utf8_lossy kb) v := rfl
    rw [hstep]
    rcases ht : EntryType.tryFrom et with e | ty
    · exact Or.inr ⟨e, rfl, by rw [tryFrom_error_shape et e ht]; rfl⟩
    · cases ty
      · exact Or.inl ⟨.Catalog ⟨from_utf8_lossy kb⟩, rfl⟩
      · exact decodeSchemaKey_classified (from_utf8_lossy kb)
      · exact decodeTableKey_classified (from_utf8_lossy kb) v
  · intro k v
    rfl

/-- C5: a missing entry type or a missing key always fails with
`InvalidKey` carrying no key: for every key and value,
`decode_system_catalog none k v` is `InvalidKey` with an absent key,
and for every entry type and value, `decode_system_catalog t none v`
is likewise `InvalidKey` with an absent key. -/
theorem decode_missing_fields_invalid_key :
    (∀ (k v : Option (List Nat)),
      decode_system_catalog none k v = .error (.InvalidKey none)) ∧
    (∀ (t : Option Nat) (v : Option (List Nat)),
      decode_system_catalog t none v = .error (.InvalidKey none)) := by
  refine ⟨fun k v => rfl, fun t v => ?_⟩
  cases t <;> rfl

/-- C6: `EntryType` round-trips through its numeric code: the forward
mapping is Catalog to 1, Schema to 2, Table to 3 and is total;
`EntryType.tryFrom` inverts it on codes 1, 2, 3; every other byte fails
with `InvalidEntryType` carrying the offending byte; and decoding a row
with such a byte and a present key fails with that same error. -/
theorem entry_type_roundtrip :
    (∀ t : EntryType, EntryType.tryFrom t.code = .ok t) ∧
    (EntryType.code .Catalog = 1 ∧ EntryType.code .Schema = 2 ∧
      EntryType.code .Table = 3) ∧
    (∀ b : Nat, b ≠ 1 → b ≠ 2 → b ≠ 3 →
      EntryType.tryFrom b = .error (.InvalidEntryType (some b))) ∧
    (∀ (b : Nat) (k : List Nat) (v : Option (List Nat)),
      b ≠ 1 → b ≠ 2 → b ≠ 3 →
      decode_system_catalog (some b) (some k) v =
        .error (.InvalidEntryType (some b))) := by
  have htf : ∀ b : Nat, b ≠ 1 → b ≠ 2 → b ≠ 3 →
      EntryType.tryFrom b = .error (.InvalidEntryType (some b)) := by
    intro b h1 h2 h3
    unfold EntryType.tryFrom
    simp [EntryType.code, h1, h2, h3]
  refine ⟨fun t => by cases t <;> rfl, ⟨rfl, rfl, rfl⟩, htf, ?_⟩
  intro b k v h1 h2 h3
  have hstep : decode_system_catalog (some b) (some k) v =
      match EntryType.tryFrom b with
      | .error e => .error e
      | .ok .Catalog => decodeCatalogKey (from_utf8_lossy k)
      | .ok .Schema => decodeSchemaKey (from_utf8_lossy k)
      | .ok .Table => decodeTableKey (from_utf8_lossy k) v := rfl
  rw [hstep, htf b h1 h2 h3]

/-- Witness for C6: byte 4 is rejected by `EntryType.tryFrom` and by
`decode_system_catalog`. -/
theorem entry_type_roundtrip_witness :
    EntryType.tryFrom 4 = .error (.InvalidEntryType (some 4)) ∧
    decode_system_catalog (some 4) (some (strBytes "x")) none =
      .error (.InvalidEntryType (some 4)) :=
  ⟨entry_type_roundtrip.2.2.1 4 (by decide) (by decide) (by decide),
   entry_type_roundtrip.2.2.2 4 (strBytes "x") none
     (by decide) (by decide) (by decide)⟩

/-- C7: a Schema row whose present key does not split into exactly two
dot-separated parts fails with `InvalidKey` carrying the offending key
text. -/
theorem decode_schema_bad_arity_invalid_key (k : List Nat)
    (v : Option (List Nat))
    (h : (splitDot (from_utf8_lossy k)).length ≠ 2) :
    decode_system_catalog (some 2) (some k) v =
      .error (.InvalidKey (some (from_utf8_lossy k))) := by
  rw [decode_schema_row_eq]
  exact decodeSchemaKey_bad_arity _ h

/-- Witness for C7: keys `"a.b.c"` (three parts) and `"a"` (one part)
both fail with `InvalidKey` carrying the key. -/
theorem decode_schema_bad_arity_invalid_key_witness :
    (splitDot (from_utf8_lossy (strBytes "a.b.c"))).length ≠ 2 ∧
    decode_system_catalog (some 2) (some (strBytes "a.b.c")) none =
      .error (.InvalidKey (some "a.b.c")) := by
  refine ⟨by decide, ?_⟩
  have h := decode_schema_bad_arity_invalid_key (strBytes "a.b.c") none
    (by decide)
  rw [show from_utf8_lossy (strBytes "a.b.c") = "a.b.c" from by decide] at h
  exact h

/-- C8: error handling of Table rows: a key with fewer than three
dot-separated parts fails with `InvalidKey` carrying the key text; a
well-formed key with an absent value fails with `EmptyValue`; a
well-formed key with a present value that does not deserialize as
`TableEntryValue` fails with `ValueDeserializeFailed`. -/
theorem decode_table_error_cases :
    (∀ (k : List Nat) (v : Option (List Nat)),
      (splitDot (from_utf8_lossy k)).length < 3 →
      decode_system_catalog (some 3) (some k) v =
        .error (.InvalidKey (some (from_utf8_lossy k)))) ∧
    (∀ k : List Nat, 3 ≤ (splitDot (from_utf8_lossy k)).length →
      decode_system_catalog (some 3) (some k) none = .error .EmptyValue) ∧
    (∀ k vb : List Nat, 3 ≤ (splitDot (from_utf8_lossy k)).length →
      parseTableEntryValue vb = none →
      decode_system_catalog (some 3) (some k) (some vb) =
        .error .ValueDeserializeFailed) := by
  refine ⟨fun k v h => ?_, fun k h => ?_, fun k vb h hv => ?_⟩
  · rw [decode_table_row_eq]
    exact decodeTableKey_short_key _ v h
  · rw [decode_table_row_eq]
    exact decodeTableKey_empty_value _ h
  · rw [decode_table_row_eq]
    exact decodeTableKey_bad_value _ vb h hv

/-- Witness for C8: scenario D (`"a.b"` short key; well-formed key with
absent value; well-formed key with malformed value). -/
theorem decode_table_error_cases_witness :
    ((splitDot (from_utf8_lossy (strBytes "a.b"))).length < 3 ∧
      decode_system_catalog (some 3) (some (strBytes "a.b")) none =
        .error (.InvalidKey (some "a.b"))) ∧
    (3 ≤ (splitDot (from_utf8_lossy
        (strBytes "some_catalog.some_schema.some_table"))).length ∧
      decode_system_catalog (some 3)
          (some (strBytes "some_catalog.some_schema.some_table")) none =
        .error .EmptyValue) ∧
    (parseTableEntryValue (strBytes "not json") = none ∧
      decode_system_catalog (some 3)
          (some (strBytes "some_catalog.some_schema.some_table"))
          (some (strBytes "not json")) =
        .error .ValueDeserializeFailed) := by
  refine ⟨⟨by decide, ?_⟩, ⟨by decide, ?_⟩, ⟨by decide, ?_⟩⟩
  · have h := decode_table_error_cases.1 (strBytes "a.b") none (by decide)
    rw [show from_utf8_lossy (strBytes "a.b") = "a.b" from by decide] at h
    exact h
  · exact decode_table_error_cases.2.1
      (strBytes "some_catalog.some_schema.some_table") (by decide)
  · exact decode_table_error_cases.2.2
      (strBytes "some_catalog.some_schema.some_table")
      (strBytes "not json") (by decide) (by decide)

/-- C9: every invocation of the system catalog table facade's `scan`
panics with the fixed message, and never returns a stream or a
recoverable error, whatever projection, filters and limit are passed. -/
theorem scan_always_panics :
    ∀ (p : Option (List Nat)) (f : List String) (l : Option Nat),
      SystemCatalogTable.scan p f l =
        .panicked "System catalog table does not support scan!" ∧
      SystemCatalogTable.scan p f l ≠ .stream ∧
      ∀ e : Err, SystemCatalogTable.scan p f l ≠ .err e := by
  intro p f l
  refine ⟨rfl, ?_, ?_⟩
  · intro h
    exact ScanResult.noConfusion h
  · intro e h
    exact ScanResult.noConfusion h

/-- C10: for Catalog and Schema rows the decode result does not depend
on the value argument: decoding with entry type 1 or 2 gives the same
result for any two values. -/
theorem decode_catalog_schema_value_independent (et : Nat)
    (k : Option (List Nat)) (v1 v2 : Option (List Nat))
    (h : et = 1 ∨ et = 2) :
    decode_system_catalog (some et) k v1 =
      decode_system_catalog (some et) k v2 := by
  rcases h with rfl | rfl <;> cases k <;> rfl

/-- Witness for C10: a Catalog row with garbage bytes in its value
column decodes exactly as with no value at all. -/
theorem decode_catalog_schema_value_independent_witness :
    ((1 : Nat) = 1 ∨ (1 : Nat) = 2) ∧
    decode_system_catalog (some 1) (some (strBytes "some_catalog"))
        (some [0xFF, 0x00, 0x7B]) =
      decode_system_catalog (some 1) (some (strBytes "some_catalog"))
        none :=
  ⟨Or.inl rfl,
   decode_catalog_schema_value_independent 1 (some (strBytes "some_catalog"))
     (some [0xFF, 0x00, 0x7B]) none (Or.inl rfl)⟩

/-- Witness for C9: the scan facade panics at a concrete call. -/
theorem scan_always_panics_witness :
    SystemCatalogTable.scan none [] none =
      .panicked "System catalog table does not support scan!" ∧
    SystemCatalogTable.scan none [] none ≠ .stream :=
  ⟨(scan_always_panics none [] none).1, (scan_always_panics none [] none).2.1⟩
